import Mathlib

/-
Verification of the Aicon item-management service.

Part 1 embeds `internal/infrastructure/database/sqlhandler.go` (present in the
repository): strings are modelled as lists of characters, the Go string helpers
(`strings.TrimSpace`, `strings.HasPrefix`, `strings.HasSuffix`,
`strings.Split`) as functions on those lists, and the effectful parts of
`NewSqlHandler` (driver open, ping, file read, statement execution) as an
explicit environment of outcomes, with a Go `panic` modelled as `Except.error`.

Part 2 embeds the item domain layer (entity, usecase, HTTP handler).  The Go
sources of those components are not part of the visible repository; they are
modelled from the specification, and pinned, wherever the two disagree, by the
repository's own controller tests (`TestItemHandler_UpdateItem`), which are
visible source.
-/

/-- Strings of the Go program, modelled as lists of characters. -/
abbrev Str := List Char

/-- The whitespace characters trimmed by Go `strings.TrimSpace` (restricted to
the ASCII whitespace that can occur in the SQL script and the tests). -/
def goIsSpace (c : Char) : Bool :=
  c = ' ' || c = '\t' || c = '\n' || c = '\r' || c = '\x0b' || c = '\x0c'

/-- Go `strings.TrimSpace`: drop whitespace from both ends. -/
def trimSpace (s : Str) : Str :=
  ((s.dropWhile goIsSpace).reverse.dropWhile goIsSpace).reverse

/-- The literal `"--"` used by `splitSQLStatements` to recognize comment lines. -/
def dashdash : Str := ['-', '-']

/-- The literal `";"` used by `splitSQLStatements` to recognize statement ends. -/
def semi : Str := [';']

/-- Go `strings.Split(s, "\n")` specialised to the newline separator, as used in
`splitSQLStatements`.  On the empty string it returns one empty chunk, like Go. -/
def splitOnNl : Str → List Str
  | [] => [[]]
  | c :: cs =>
    if c = '\n' then [] :: splitOnNl cs
    else
      match splitOnNl cs with
      | [] => [[c]]
      | l :: ls => (c :: l) :: ls

/-- The accumulation loop of `splitSQLStatements` (sqlhandler.go lines 61-90):
comment lines are skipped, every other line is appended to the current builder
followed by a newline, and the builder is flushed after a line whose trimmed
form ends in a semicolon; a non-empty leftover builder is flushed at the end. -/
def buildStatements : List Str → Str → List Str
  | [], current => if current.isEmpty then [] else [current]
  | line :: rest, current =>
    if dashdash.isPrefixOf (trimSpace line) then
      buildStatements rest current
    else if semi.isSuffixOf (trimSpace line) then
      (current ++ line ++ ['\n']) :: buildStatements rest []
    else
      buildStatements rest (current ++ line ++ ['\n'])

/-- Go `splitSQLStatements` (sqlhandler.go): split the script into lines,
drop comment lines, and group the rest into semicolon-terminated statements. -/
def splitSQLStatements (sql : Str) : List Str :=
  buildStatements (splitOnNl sql) []

/-- The statement-execution loop of `NewSqlHandler` (sqlhandler.go lines 43-53):
each statement is trimmed; empty or comment-prefixed statements are skipped;
every other statement is executed, a failed execution is merely logged and the
loop continues.  `exec` gives the (external) success or failure of each
`conn.Exec` call; the result records every attempted statement with its outcome. -/
def runInitStatements (exec : Str → Bool) : List Str → List (Str × Bool)
  | [] => []
  | raw :: rest =>
    if (trimSpace raw).isEmpty || dashdash.isPrefixOf (trimSpace raw) then
      runInitStatements exec rest
    else
      (trimSpace raw, exec (trimSpace raw)) :: runInitStatements exec rest

/-- The external outcomes that `NewSqlHandler` meets at startup: whether
`sql.Open` fails, whether `conn.Ping` fails, the content of `sql/init.sql`
(`none` when `os.ReadFile` fails), and the outcome of each `conn.Exec`. -/
structure StartupEnv where
  openFails : Bool
  pingFails : Bool
  initSql : Option Str
  exec : Str → Bool

/-- Go `NewSqlHandler` (sqlhandler.go lines 20-58), with a `panic` modelled as
`Except.error` carrying the panic message and a normal return as `Except.ok`
carrying the trace of attempted bootstrap statements.  A failure to read
`sql/init.sql` is only logged (no statement runs); statement failures are only
logged; neither aborts startup. -/
def NewSqlHandler (env : StartupEnv) : Except Str (List (Str × Bool)) :=
  if env.openFails then
    Except.error ("Failed to connect to database".data)
  else if env.pingFails then
    Except.error ("Failed to ping database".data)
  else
    match env.initSql with
    | none => Except.ok []
    | some content => Except.ok (runInitStatements env.exec (splitSQLStatements content))

/-- The observable part of a Go `sql.Result` (sqlhandler.go `mysqlResult`). -/
structure SqlExecResult where
  lastInsertId : Int
  rowsAffected : Int
deriving DecidableEq

/-- Go `mysqlResult`: the wrapper around a driver result returned by `Execute`. -/
structure MysqlResult where
  result : SqlExecResult
deriving DecidableEq

/-- The opaque payload of a Go `*sql.Rows` cursor; `Query` wraps it without
inspecting it, so its content is irrelevant to the embedding. -/
structure SqlRowsData where
  rowsSeen : List (List Int)
deriving DecidableEq

/-- Go `mysqlRows`: the wrapper around a driver cursor returned by `Query`. -/
structure MysqlRows where
  rows : SqlRowsData
deriving DecidableEq

/-- Go `MySqlHandler.Execute` (sqlhandler.go lines 92-98): the underlying
`ExecContext` call is the external input; on failure the error is returned with
a nil result, on success the result is wrapped and the error is nil.  The Go
pair (result, error) is modelled as a pair of options. -/
def MySqlHandler.Execute (call : Except Str SqlExecResult) :
    Option MysqlResult × Option Str :=
  match call with
  | Except.error e => (none, some e)
  | Except.ok r => (some ⟨r⟩, none)

/-- Go `MySqlHandler.Query` (sqlhandler.go lines 100-106): same shape as
`Execute`, wrapping a cursor instead of a result. -/
def MySqlHandler.Query (call : Except Str SqlRowsData) :
    Option MysqlRows × Option Str :=
  match call with
  | Except.error e => (none, some e)
  | Except.ok r => (some ⟨r⟩, none)

/-
Part 2: the item domain layer.  The Go sources of `entity.NewItem`,
`usecase.UpdateItem` and `ItemHandler.UpdateItem` are not part of the visible
repository; the definitions below are modelled from the specification, pinned
by the repository's controller tests (`TestItemHandler_UpdateItem` in the
visible controller test file), which show, via mock expectations, that the
handler itself rejects malformed ids, malformed JSON, empty updates and
per-field validation failures with 400 before any usecase call.
-/

/-- Modelled from the spec: the `entity.Item` domain record (name, category,
brand, purchase price, purchase date, storage-assigned id); the Go source of
the entity package is missing from the visible repository. -/
structure Item where
  id : Int
  name : String
  category : String
  brand : String
  purchasePrice : Int
  purchaseDate : String
deriving DecidableEq

/-- Modelled from the spec: the closed error taxonomy (`ErrItemNotFound`,
`ErrDatabaseError`, validation errors) consumed by the transport layer; the Go
source of the domain errors package is missing from the visible repository. -/
inductive DomainError where
  | validationError
  | itemNotFound
  | databaseError
deriving DecidableEq

/-- Modelled from the spec: the shape check on the stored `YYYY-MM-DD` date
string, whose parse failure is a validation failure; the Go entity source is
missing from the visible repository. -/
def validPurchaseDate (s : String) : Bool :=
  match s.data with
  | [y1, y2, y3, y4, h1, m1, m2, h2, d1, d2] =>
    y1.isDigit && y2.isDigit && y3.isDigit && y4.isDigit && h1 == '-' &&
      m1.isDigit && m2.isDigit && h2 == '-' && d1.isDigit && d2.isDigit
  | _ => false

/-- Modelled from the spec: `entity.NewItem` fails with a validation error when
`name` or `brand` is empty, when `purchasePrice` is negative, or when the date
string does not parse; otherwise it returns the item (id assigned later by
storage).  The Go entity source is missing from the visible repository. -/
def NewItem (name category brand : String) (purchasePrice : Int)
    (purchaseDate : String) : Except DomainError Item :=
  if name = "" then Except.error DomainError.validationError
  else if brand = "" then Except.error DomainError.validationError
  else if purchasePrice < 0 then Except.error DomainError.validationError
  else if !(validPurchaseDate purchaseDate) then Except.error DomainError.validationError
  else Except.ok
    { id := 0, name := name, category := category, brand := brand
      purchasePrice := purchasePrice, purchaseDate := purchaseDate }

/-- Modelled from the spec: `usecase.UpdateItemInput`, a set of optional fields
where absence means "leave unchanged"; the controller tests exercise exactly
the fields `name`, `brand` and `purchase_price`.  The Go usecase source is
missing from the visible repository. -/
structure UpdateItemInput where
  name : Option String
  brand : Option String
  purchasePrice : Option Int
deriving DecidableEq

/-- An update input with no field present ("empty update"). -/
def emptyUpdate (input : UpdateItemInput) : Bool :=
  input.name.isNone && input.brand.isNone && input.purchasePrice.isNone

/-- Modelled from the spec: the field-level validation of an update input —
an entirely empty field set, a present-but-empty `name` or `brand`, or a
present negative `purchasePrice` is a validation failure; the Go source
applying these rules is missing from the visible repository. -/
def validateUpdateInput (input : UpdateItemInput) : Option DomainError :=
  if emptyUpdate input then some DomainError.validationError
  else if input.name = some "" then some DomainError.validationError
  else if input.brand = some "" then some DomainError.validationError
  else
    match input.purchasePrice with
    | some p => if p < 0 then some DomainError.validationError else none
    | none => none

/-- The stored item with the given id, if any (the repository lookup the
usecase performs through `FindByID`). -/
def findItem (store : List Item) (id : Int) : Option Item :=
  store.find? (fun it => it.id == id)

/-- Modelled from the spec: the partial-update merge — fields present in the
input overwrite the stored values, absent fields retain them.  The Go usecase
source is missing from the visible repository. -/
def mergeItem (item : Item) (input : UpdateItemInput) : Item :=
  { item with
    name := input.name.getD item.name
    brand := input.brand.getD item.brand
    purchasePrice := input.purchasePrice.getD item.purchasePrice }

/-- Modelled from the spec: `usecase.UpdateItem` — fails with `ItemNotFound`
when no stored item has the id (checked first), then validates the input
fields, then persists the merged entity (`DatabaseError` on storage failure,
abstracted by `dbFails`).  The Go usecase source is missing from the visible
repository. -/
def usecaseUpdateItem (store : List Item) (dbFails : Bool) (id : Int)
    (input : UpdateItemInput) : Except DomainError Item :=
  match findItem store id with
  | none => Except.error DomainError.itemNotFound
  | some item =>
    match validateUpdateInput input with
    | some e => Except.error e
    | none =>
      if dbFails then Except.error DomainError.databaseError
      else Except.ok (mergeItem item input)

/-- Modelled from the spec: the item repository's `Update` translates the merged
entity into a parameterized statement and reports the storage outcome; it never
evaluates business rules, so its outcome depends only on the storage outcome,
never on the item's field values.  The Go repository source is missing from the
visible repository. -/
def itemRepositoryUpdate (storageOk : Bool) (item : Item) : Except DomainError Unit :=
  if storageOk then Except.ok () else Except.error DomainError.databaseError

/-- The value of a decimal digit string (used by the path-id parse). -/
def digitsToNat (cs : List Char) : Nat :=
  cs.foldl (fun acc c => acc * 10 + (c.toNat - 48)) 0

/-- Modelled from the spec: the path identifier must parse as a positive
integer — a non-empty all-digit string with positive value; anything else is
malformed.  The Go handler source is missing from the visible repository; the
controller tests pin `"invalid"` as malformed and `"1"`, `"999"` as valid. -/
def parsePositiveId (s : String) : Option Int :=
  if !s.data.isEmpty && s.data.all (fun c => c.isDigit) then
    if digitsToNat s.data > 0 then some (Int.ofNat (digitsToNat s.data)) else none
  else none

/-- The observable outcome of one handler invocation: the HTTP status written,
whether the usecase was invoked (the controller tests assert this through mock
expectations), and the item serialized in a 200 response. -/
structure HandlerResult where
  status : Nat
  usecaseCalled : Bool
  body : Option Item
deriving DecidableEq

/-- Modelled from the spec: `ItemHandler.UpdateItem`, generic over the usecase
it is constructed with (the controller tests construct it with a mock).  The Go
handler source is missing from the visible repository; where the spec and the
controller tests disagree, the tests are followed: they show the handler
returns 400 for a malformed id, a malformed JSON body (`reqBody = none`), an
empty update and every per-field validation failure, each time without calling
the usecase, and maps usecase outcomes ok/NotFound/DatabaseError to
200/404/500. -/
def ItemHandler.UpdateItem (usecase : Int → UpdateItemInput → Except DomainError Item)
    (idParam : String) (reqBody : Option UpdateItemInput) : HandlerResult :=
  match parsePositiveId idParam with
  | none => ⟨400, false, none⟩
  | some id =>
    match reqBody with
    | none => ⟨400, false, none⟩
    | some input =>
      match validateUpdateInput input with
      | some _ => ⟨400, false, none⟩
      | none =>
        match usecase id input with
        | Except.ok item => ⟨200, true, some item⟩
        | Except.error DomainError.itemNotFound => ⟨404, true, none⟩
        | Except.error DomainError.validationError => ⟨400, true, none⟩
        | Except.error DomainError.databaseError => ⟨500, true, none⟩

/-- The deployed handler: `ItemHandler.UpdateItem` constructed with the real
usecase over a given store and storage outcome. -/
def handlerUpdateItem (store : List Item) (dbFails : Bool) (idParam : String)
    (reqBody : Option UpdateItemInput) : HandlerResult :=
  ItemHandler.UpdateItem (usecaseUpdateItem store dbFails) idParam reqBody

/-- A stored item used as a concrete instance in witnesses (the scenario item
of the spec and tests). -/
def sampleItem : Item :=
  { id := 1, name := "Watch", category := "Watch", brand := "ROLEX"
    purchasePrice := 1000000, purchaseDate := "2023-01-01" }

/-- The newline-join of a list of lines, each line followed by one newline:
the shape of every string the statement builder accumulates. -/
def joinNl : List Str → Str
  | [] => []
  | l :: ls => l ++ '\n' :: joinNl ls

/-
Theorems.  First the supporting lemmas about the Go string helpers, then the
claim theorems.
-/

theorem splitOnNl_ne_nil (s : Str) : splitOnNl s ≠ [] := by
  induction s with
  | nil => simp [splitOnNl]
  | cons c cs ih =>
    simp only [splitOnNl]
    split
    · simp
    · cases h : splitOnNl cs <;> simp

theorem splitOnNl_append_nl (l r : Str) (h : '\n' ∉ l) :
    splitOnNl (l ++ '\n' :: r) = l :: splitOnNl r := by
  induction l with
  | nil => simp [splitOnNl]
  | cons c l₂ ih =>
    have hc : ¬ (c = '\n') := fun e => h (e ▸ List.mem_cons_self c l₂)
    have h₂ : '\n' ∉ l₂ := fun m => h (List.mem_cons_of_mem _ m)
    simp only [List.cons_append, splitOnNl, if_neg hc, List.append_eq, ih h₂]

theorem splitOnNl_no_nl (s : Str) : ∀ l ∈ splitOnNl s, '\n' ∉ l := by
  induction s with
  | nil =>
    intro l hl
    simp only [splitOnNl, List.mem_singleton] at hl
    subst hl; simp
  | cons c cs ih =>
    intro l hl
    by_cases hc : c = '\n'
    · simp only [splitOnNl, if_pos hc] at hl
      rcases List.mem_cons.mp hl with h | h
      · subst h; simp
      · exact ih l h
    · simp only [splitOnNl, if_neg hc] at hl
      cases hsp : splitOnNl cs with
      | nil => exact absurd hsp (splitOnNl_ne_nil cs)
      | cons hd tl =>
        rw [hsp] at hl
        rcases List.mem_cons.mp hl with h | h
        · subst h
          intro hmem
          rcases List.mem_cons.mp hmem with h | h
          · exact hc h.symm
          · exact ih hd (hsp ▸ List.mem_cons_self hd tl) h
        · exact ih l (hsp ▸ List.mem_cons_of_mem hd h)

theorem splitOnNl_joinNl (ls : List Str) (h : ∀ l ∈ ls, '\n' ∉ l) :
    splitOnNl (joinNl ls) = ls ++ [[]] := by
  induction ls with
  | nil => simp [joinNl, splitOnNl]
  | cons l ls ih =>
    rw [joinNl, splitOnNl_append_nl l _ (h l (List.mem_cons_self l ls)),
      ih (fun x hx => h x (List.mem_cons_of_mem l hx))]
    simp

theorem joinNl_append_single (cs : List Str) (l : Str) :
    joinNl (cs ++ [l]) = joinNl cs ++ l ++ ['\n'] := by
  induction cs with
  | nil => simp [joinNl]
  | cons c cs ih => simp [joinNl, ih]

theorem buildStatements_clean (lines : List Str) :
    ∀ cs : List Str,
      (∀ l ∈ lines, '\n' ∉ l) →
      (∀ c ∈ cs, '\n' ∉ c ∧ dashdash.isPrefixOf (trimSpace c) = false) →
      ∀ stmt ∈ buildStatements lines (joinNl cs),
        ∃ ds, (∀ d ∈ ds, '\n' ∉ d ∧ dashdash.isPrefixOf (trimSpace d) = false) ∧
          stmt = joinNl ds := by
  induction lines with
  | nil =>
    intro cs _ hcs stmt hstmt
    simp only [buildStatements] at hstmt
    split at hstmt
    · simp at hstmt
    · rw [List.mem_singleton] at hstmt
      exact ⟨cs, hcs, hstmt⟩
  | cons line rest ih =>
    intro cs hlines hcs stmt hstmt
    have hline : '\n' ∉ line := hlines line (List.mem_cons_self line rest)
    have hrest : ∀ l ∈ rest, '\n' ∉ l :=
      fun l hl => hlines l (List.mem_cons_of_mem line hl)
    simp only [buildStatements] at hstmt
    by_cases hd : dashdash.isPrefixOf (trimSpace line) = true
    · rw [if_pos hd] at hstmt
      exact ih cs hrest hcs stmt hstmt
    · rw [if_neg hd] at hstmt
      have hclean : ∀ c ∈ cs ++ [line],
          '\n' ∉ c ∧ dashdash.isPrefixOf (trimSpace c) = false := by
        intro c hc
        rcases List.mem_append.mp hc with h | h
        · exact hcs c h
        · rw [List.mem_singleton] at h
          subst h
          exact ⟨hline, Bool.eq_false_iff.mpr hd⟩
      by_cases hs : semi.isSuffixOf (trimSpace line) = true
      · rw [if_pos hs] at hstmt
        rcases List.mem_cons.mp hstmt with h | h
        · refine ⟨cs ++ [line], hclean, ?_⟩
          rw [joinNl_append_single]
          exact h
        · have := ih [] hrest (by simp) stmt (by simpa [joinNl] using h)
          exact this
      · rw [if_neg hs] at hstmt
        have : stmt ∈ buildStatements rest (joinNl (cs ++ [line])) := by
          rw [joinNl_append_single]
          exact hstmt
        exact ih (cs ++ [line]) hrest hclean stmt this

/-- C9: for every input string, no statement returned by `splitSQLStatements`
contains a line whose whitespace-trimmed form begins with `--`: comment lines
are dropped before statement grouping. -/
theorem splitSQLStatements_no_comment_lines (sql : Str) :
    ∀ stmt ∈ splitSQLStatements sql, ∀ line ∈ splitOnNl stmt,
      dashdash.isPrefixOf (trimSpace line) = false := by
  intro stmt hstmt line hline
  obtain ⟨ds, hds, rfl⟩ :=
    buildStatements_clean (splitOnNl sql) [] (splitOnNl_no_nl sql) (by simp)
      stmt (by simpa [splitSQLStatements, joinNl] using hstmt)
  rw [splitOnNl_joinNl ds (fun l hl => (hds l hl).1)] at hline
  rcases List.mem_append.mp hline with h | h
  · exact (hds line h).2
  · rw [List.mem_singleton] at h
    subst h
    decide

/-- C9 witness: on the concrete script `"A;\n-- x\nB"` the first returned
statement is `"A;\n"`, whose line `"A;"` is not comment-prefixed. -/
theorem splitSQLStatements_no_comment_lines_witness :
    dashdash.isPrefixOf (trimSpace ['A', ';']) = false :=
  splitSQLStatements_no_comment_lines ("A;\n-- x\nB".data) ['A', ';', '\n']
    (by decide) ['A', ';'] (by decide)

theorem runInitStatements_map_fst (exec₁ exec₂ : Str → Bool) (stmts : List Str) :
    (runInitStatements exec₁ stmts).map Prod.fst
      = (runInitStatements exec₂ stmts).map Prod.fst := by
  induction stmts with
  | nil => rfl
  | cons raw rest ih =>
    by_cases h :
        ((trimSpace raw).isEmpty || dashdash.isPrefixOf (trimSpace raw)) = true
    · simp only [runInitStatements, if_pos h, ih]
    · simp only [runInitStatements, if_neg h, List.map_cons, ih]

/-- C7: during schema bootstrap, a failing SQL statement is skipped, not fatal:
the sequence of statements attempted by the bootstrap loop is the same whatever
subset of executions fails (no failure stops the loop), and `NewSqlHandler`
still returns a handler (never a panic) when every execution fails. -/
theorem bootstrap_statement_failures_nonfatal (content : Str) (exec : Str → Bool) :
    (runInitStatements exec (splitSQLStatements content)).map Prod.fst
      = (runInitStatements (fun _ => true) (splitSQLStatements content)).map Prod.fst ∧
    NewSqlHandler ⟨false, false, some content, exec⟩
      = Except.ok (runInitStatements exec (splitSQLStatements content)) ∧
    NewSqlHandler ⟨false, false, some content, fun _ => false⟩
      = Except.ok (runInitStatements (fun _ => false) (splitSQLStatements content)) :=
  ⟨runInitStatements_map_fst exec (fun _ => true) (splitSQLStatements content),
    rfl, rfl⟩

/-- C8: the only fatal (panicking) paths of the constructor are a failed
driver open or a failed ping: `NewSqlHandler` returns `Except.error` (the model
of a Go panic) exactly when one of those two startup steps fails — a missing
`init.sql` or failing bootstrap statements never panic. -/
theorem newSqlHandler_fatal_iff_open_or_ping_fails (env : StartupEnv) :
    (∃ msg, NewSqlHandler env = Except.error msg) ↔
      (env.openFails = true ∨ env.pingFails = true) := by
  obtain ⟨o, p, i, e⟩ := env
  cases o <;> cases p <;> cases i <;>
    simp [NewSqlHandler]

/-- C10: `MySqlHandler.Execute` and `MySqlHandler.Query` return exclusively
either a non-nil wrapper with a nil error (driver call succeeded) or a nil
result with the driver's own non-nil error — never both nil, never both
non-nil. -/
theorem execute_query_exclusive_outcomes :
    (∀ call : Except Str SqlExecResult,
      (∃ r, MySqlHandler.Execute call = (some ⟨r⟩, none) ∧ call = Except.ok r) ∨
      (∃ e, MySqlHandler.Execute call = (none, some e) ∧ call = Except.error e)) ∧
    (∀ call : Except Str SqlRowsData,
      (∃ r, MySqlHandler.Query call = (some ⟨r⟩, none) ∧ call = Except.ok r) ∨
      (∃ e, MySqlHandler.Query call = (none, some e) ∧ call = Except.error e)) := by
  constructor <;> intro call <;> cases call <;>
    simp [MySqlHandler.Execute, MySqlHandler.Query]

/-
Supporting lemmas about the update handler and usecase.
-/

theorem handler_id_none (u : Int → UpdateItemInput → Except DomainError Item)
    (idParam : String) (reqBody : Option UpdateItemInput)
    (h : parsePositiveId idParam = none) :
    ItemHandler.UpdateItem u idParam reqBody = ⟨400, false, none⟩ := by
  unfold ItemHandler.UpdateItem
  rw [h]

theorem handler_body_none (u : Int → UpdateItemInput → Except DomainError Item)
    (idParam : String) (id : Int) (h : parsePositiveId idParam = some id) :
    ItemHandler.UpdateItem u idParam none = ⟨400, false, none⟩ := by
  unfold ItemHandler.UpdateItem
  rw [h]

theorem handler_valid_input (u : Int → UpdateItemInput → Except DomainError Item)
    (idParam : String) (id : Int) (input : UpdateItemInput)
    (hid : parsePositiveId idParam = some id)
    (hv : validateUpdateInput input = none) :
    ItemHandler.UpdateItem u idParam (some input) =
      match u id input with
      | Except.ok item => ⟨200, true, some item⟩
      | Except.error DomainError.itemNotFound => ⟨404, true, none⟩
      | Except.error DomainError.validationError => ⟨400, true, none⟩
      | Except.error DomainError.databaseError => ⟨500, true, none⟩ := by
  simp only [ItemHandler.UpdateItem, hid, hv]

theorem handler_invalid_input (u : Int → UpdateItemInput → Except DomainError Item)
    (idParam : String) (input : UpdateItemInput)
    (h : (validateUpdateInput input).isSome = true) :
    ItemHandler.UpdateItem u idParam (some input) = ⟨400, false, none⟩ := by
  obtain ⟨e, he⟩ := Option.isSome_iff_exists.mp h
  cases hid : parsePositiveId idParam with
  | none => simp only [ItemHandler.UpdateItem, hid]
  | some id => simp only [ItemHandler.UpdateItem, hid, he]

theorem usecase_notFound (store : List Item) (dbFails : Bool) (id : Int)
    (input : UpdateItemInput) (h : findItem store id = none) :
    usecaseUpdateItem store dbFails id input = Except.error DomainError.itemNotFound := by
  unfold usecaseUpdateItem
  rw [h]

theorem usecase_found_valid (store : List Item) (dbFails : Bool) (id : Int)
    (input : UpdateItemInput) (item : Item)
    (hfind : findItem store id = some item)
    (hv : validateUpdateInput input = none) :
    usecaseUpdateItem store dbFails id input =
      if dbFails then Except.error DomainError.databaseError
      else Except.ok (mergeItem item input) := by
  unfold usecaseUpdateItem
  rw [hfind, hv]

theorem usecase_no_validationError_after_precheck (store : List Item)
    (dbFails : Bool) (id : Int) (input : UpdateItemInput)
    (hv : validateUpdateInput input = none) :
    usecaseUpdateItem store dbFails id input ≠
      Except.error DomainError.validationError := by
  unfold usecaseUpdateItem
  cases h : findItem store id with
  | none => simp
  | some item =>
    rw [hv]
    cases dbFails <;> simp

/-- The modelled handler reproduces every row of the visible controller test
`TestItemHandler_UpdateItem`: each successful update maps to 200 with the
usecase's item; a malformed id, an empty body, a per-field validation failure
and a malformed JSON body map to 400 with the usecase provably never invoked
(for every usecase behavior `u`, matching the tests' mock expectations);
`ErrItemNotFound` maps to 404 and `ErrDatabaseError` to 500. -/
theorem updateItem_matches_controller_tests :
    (∀ it : Item, ItemHandler.UpdateItem (fun _ _ => Except.ok it) "1"
      (some ⟨some "NewName", none, none⟩) = ⟨200, true, some it⟩) ∧
    (∀ it : Item, ItemHandler.UpdateItem (fun _ _ => Except.ok it) "1"
      (some ⟨none, some "NewBrand", none⟩) = ⟨200, true, some it⟩) ∧
    (∀ it : Item, ItemHandler.UpdateItem (fun _ _ => Except.ok it) "1"
      (some ⟨none, none, some 2000000⟩) = ⟨200, true, some it⟩) ∧
    (∀ it : Item, ItemHandler.UpdateItem (fun _ _ => Except.ok it) "1"
      (some ⟨some "NewName", some "NewBrand", some 2000000⟩) = ⟨200, true, some it⟩) ∧
    (∀ u, ItemHandler.UpdateItem u "invalid"
      (some ⟨some "NewName", none, none⟩) = ⟨400, false, none⟩) ∧
    (∀ u, ItemHandler.UpdateItem u "1"
      (some ⟨none, none, none⟩) = ⟨400, false, none⟩) ∧
    (ItemHandler.UpdateItem (fun _ _ => Except.error DomainError.itemNotFound) "999"
      (some ⟨some "NewName", none, none⟩) = ⟨404, true, none⟩) ∧
    (∀ u, ItemHandler.UpdateItem u "1"
      (some ⟨some "", none, none⟩) = ⟨400, false, none⟩) ∧
    (∀ u, ItemHandler.UpdateItem u "1"
      (some ⟨none, some "", none⟩) = ⟨400, false, none⟩) ∧
    (∀ u, ItemHandler.UpdateItem u "1"
      (some ⟨none, none, some (-1)⟩) = ⟨400, false, none⟩) ∧
    (∀ u, ItemHandler.UpdateItem u "1" none = ⟨400, false, none⟩) ∧
    (ItemHandler.UpdateItem (fun _ _ => Except.error DomainError.databaseError) "1"
      (some ⟨some "NewName", none, none⟩) = ⟨500, true, none⟩) := by
  refine ⟨fun it => rfl, fun it => rfl, fun it => rfl, fun it => rfl,
    fun u => rfl, fun u => rfl, rfl, fun u => rfl, fun u => rfl,
    fun u => rfl, fun u => rfl, rfl⟩

theorem validateUpdateInput_neg_price (n b : Option String) (p : Int) (hp : p < 0) :
    validateUpdateInput ⟨n, b, some p⟩ = some DomainError.validationError := by
  unfold validateUpdateInput
  split
  · rfl
  split
  · rfl
  split
  · rfl
  show (if p < 0 then some DomainError.validationError else none)
      = some DomainError.validationError
  rw [if_pos hp]

/-- C1 counterexample: an update targeting id 999 over an empty store (so no
stored item matches) with a body that violates validation (name present and
empty) yields status 400 with the usecase never invoked — not the 404
(`ItemNotFound`) the claim requires: the transport-level validation runs before
the existence check ever can. -/
theorem update_nonexistent_invalid_body_returns_400 :
    findItem [] 999 = none ∧
    handlerUpdateItem [] false "999" (some ⟨some "", none, none⟩)
      = ⟨400, false, none⟩ := by
  exact ⟨rfl, rfl⟩

/-- C1 (amended): on a non-existent id, the usecase itself fails with
`ItemNotFound` whatever the supplied input (its existence check precedes its
validation), and the full request yields 404 exactly when the body passes the
transport-level field validation; a body violating validation rules yields 400
without any usecase call, so the existence check never runs for it. -/
theorem update_nonexistent_id_outcomes (store : List Item) (dbFails : Bool)
    (idParam : String) (id : Int) (input : UpdateItemInput)
    (hid : parsePositiveId idParam = some id)
    (hfind : findItem store id = none) :
    usecaseUpdateItem store dbFails id input = Except.error DomainError.itemNotFound ∧
    (validateUpdateInput input = none →
      handlerUpdateItem store dbFails idParam (some input) = ⟨404, true, none⟩) ∧
    ((validateUpdateInput input).isSome = true →
      handlerUpdateItem store dbFails idParam (some input) = ⟨400, false, none⟩) := by
  refine ⟨usecase_notFound store dbFails id input hfind, ?_, ?_⟩
  · intro hv
    unfold handlerUpdateItem
    rw [handler_valid_input _ idParam id input hid hv,
      usecase_notFound store dbFails id input hfind]
  · intro hv
    exact handler_invalid_input _ idParam input hv

/-- C1 witness: over the empty store, updating id 999 with the valid body
setting only the name yields 404. -/
theorem update_nonexistent_id_outcomes_witness :
    handlerUpdateItem [] false "999" (some ⟨some "x", none, none⟩)
      = ⟨404, true, none⟩ :=
  (update_nonexistent_id_outcomes [] false "999" 999 ⟨some "x", none, none⟩
    (by decide) (by decide)).2.1 (by decide)

/-- C2 counterexample: a decodable body with an empty name does not reach the
usecase: even constructed with a usecase that always succeeds, the handler
returns 400 with `usecaseCalled = false` — the transport layer evaluated the
validation rule itself, refuting "any decodable request body reaches the
usecase unvalidated". -/
theorem transport_layer_validates_update_fields :
    ItemHandler.UpdateItem (fun _ _ => Except.ok sampleItem) "1"
      (some ⟨some "", none, none⟩) = ⟨400, false, none⟩ ∧
    handlerUpdateItem [sampleItem] false "1" (some ⟨some "", none, none⟩)
      = ⟨400, false, none⟩ := by
  exact ⟨rfl, rfl⟩

/-- C2 (amended): field-level validation is applied by the transport layer as
well as by the usecase: the handler rejects every invalid update body with 400
before any usecase call, bodies passing validation (with a well-formed id) do
reach the usecase, and the repository never evaluates validation rules — its
outcome is the same for any two items under the same storage outcome. -/
theorem update_validation_at_transport (store : List Item) (dbFails : Bool)
    (idParam : String) (id : Int) (input : UpdateItemInput) :
    ((validateUpdateInput input).isSome = true →
      handlerUpdateItem store dbFails idParam (some input) = ⟨400, false, none⟩) ∧
    (parsePositiveId idParam = some id → validateUpdateInput input = none →
      (handlerUpdateItem store dbFails idParam (some input)).usecaseCalled = true) ∧
    (∀ ok : Bool, ∀ i j : Item, itemRepositoryUpdate ok i = itemRepositoryUpdate ok j) := by
  refine ⟨fun hv => handler_invalid_input _ idParam input hv, ?_, fun ok i j => rfl⟩
  intro hid hv
  unfold handlerUpdateItem
  rw [handler_valid_input _ idParam id input hid hv]
  cases hu : usecaseUpdateItem store dbFails id input with
  | ok item => rfl
  | error e => cases e <;> rfl

/-- C2 witness: the invalid body (empty brand) is rejected at the transport with
400, and the valid body (name only) reaches the usecase. -/
theorem update_validation_at_transport_witness :
    handlerUpdateItem [sampleItem] false "1" (some ⟨none, some "", none⟩)
      = ⟨400, false, none⟩ ∧
    (handlerUpdateItem [sampleItem] false "1" (some ⟨some "x", none, none⟩)).usecaseCalled
      = true :=
  ⟨(update_validation_at_transport [sampleItem] false "1" 1
      ⟨none, some "", none⟩).1 (by decide),
   (update_validation_at_transport [sampleItem] false "1" 1
      ⟨some "x", none, none⟩).2.1 (by decide) (by decide)⟩

/-- C3: an update whose field set is entirely empty always fails with a
validation error: the handler answers 400 without invoking the usecase (so no
write can be reached), for any id — in particular any existing one — and the
usecase itself would also classify it as a `validationError`, an outcome
distinct from `itemNotFound`. -/
theorem update_empty_field_set_rejected (store : List Item) (dbFails : Bool)
    (idParam : String) (id : Int) (item : Item)
    (hfind : findItem store id = some item) :
    handlerUpdateItem store dbFails idParam (some ⟨none, none, none⟩)
      = ⟨400, false, none⟩ ∧
    usecaseUpdateItem store dbFails id ⟨none, none, none⟩
      = Except.error DomainError.validationError ∧
    DomainError.validationError ≠ DomainError.itemNotFound := by
  refine ⟨handler_invalid_input _ idParam _ (by decide), ?_, by decide⟩
  unfold usecaseUpdateItem
  rw [hfind]
  rfl

/-- C3 witness: for the stored sample item (id 1), the empty update yields 400
without a usecase call. -/
theorem update_empty_field_set_rejected_witness :
    handlerUpdateItem [sampleItem] false "1" (some ⟨none, none, none⟩)
      = ⟨400, false, none⟩ :=
  (update_empty_field_set_rejected [sampleItem] false "1" 1 sampleItem (by decide)).1

/-- C4: the PATCH handler's outcome is exactly one of: 400 for a malformed id,
malformed JSON body or validation failure; 200 with the updated item when the
usecase succeeds; 404 on `ItemNotFound`; 500 on `DatabaseError` — and no other
status arises. -/
theorem updateItem_status_mapping_total (store : List Item) (dbFails : Bool)
    (idParam : String) (reqBody : Option UpdateItemInput) :
    (handlerUpdateItem store dbFails idParam reqBody = ⟨400, false, none⟩ ∧
      (parsePositiveId idParam = none ∨ reqBody = none ∨
        ∃ input, reqBody = some input ∧ (validateUpdateInput input).isSome = true)) ∨
    (∃ id input item, parsePositiveId idParam = some id ∧ reqBody = some input ∧
      usecaseUpdateItem store dbFails id input = Except.ok item ∧
      handlerUpdateItem store dbFails idParam reqBody = ⟨200, true, some item⟩) ∨
    (∃ id input, parsePositiveId idParam = some id ∧ reqBody = some input ∧
      usecaseUpdateItem store dbFails id input = Except.error DomainError.itemNotFound ∧
      handlerUpdateItem store dbFails idParam reqBody = ⟨404, true, none⟩) ∨
    (∃ id input, parsePositiveId idParam = some id ∧ reqBody = some input ∧
      usecaseUpdateItem store dbFails id input = Except.error DomainError.databaseError ∧
      handlerUpdateItem store dbFails idParam reqBody = ⟨500, true, none⟩) := by
  cases hid : parsePositiveId idParam with
  | none =>
    exact Or.inl ⟨handler_id_none _ idParam reqBody hid, Or.inl rfl⟩
  | some id =>
    cases reqBody with
    | none =>
      exact Or.inl ⟨handler_body_none _ idParam id hid, Or.inr (Or.inl rfl)⟩
    | some input =>
      cases hv : validateUpdateInput input with
      | some e =>
        exact Or.inl ⟨handler_invalid_input _ idParam input (by rw [hv]; rfl),
          Or.inr (Or.inr ⟨input, rfl, by rw [hv]; rfl⟩)⟩
      | none =>
        have hh := handler_valid_input (usecaseUpdateItem store dbFails)
          idParam id input hid hv
        cases hu : usecaseUpdateItem store dbFails id input with
        | ok item =>
          refine Or.inr (Or.inl ⟨id, input, item, rfl, rfl, hu, ?_⟩)
          unfold handlerUpdateItem
          rw [hh, hu]
        | error err =>
          cases err with
          | itemNotFound =>
            refine Or.inr (Or.inr (Or.inl ⟨id, input, rfl, rfl, hu, ?_⟩))
            unfold handlerUpdateItem
            rw [hh, hu]
          | databaseError =>
            refine Or.inr (Or.inr (Or.inr ⟨id, input, rfl, rfl, hu, ?_⟩))
            unfold handlerUpdateItem
            rw [hh, hu]
          | validationError =>
            exact absurd hu
              (usecase_no_validationError_after_precheck store dbFails id input hv)

/-- C5: a path identifier that does not parse as a positive integer is answered
with 400 and the usecase is never invoked, whatever the store, the storage
outcome and the request body. -/
theorem malformed_id_rejected_before_usecase (store : List Item) (dbFails : Bool)
    (idParam : String) (reqBody : Option UpdateItemInput)
    (h : parsePositiveId idParam = none) :
    handlerUpdateItem store dbFails idParam reqBody = ⟨400, false, none⟩ :=
  handler_id_none _ idParam reqBody h

/-- C5 witness: the controller tests' malformed id `"invalid"` yields 400
without a usecase call. -/
theorem malformed_id_rejected_before_usecase_witness :
    handlerUpdateItem [sampleItem] false "invalid" (some ⟨some "x", none, none⟩)
      = ⟨400, false, none⟩ :=
  malformed_id_rejected_before_usecase [sampleItem] false "invalid"
    (some ⟨some "x", none, none⟩) (by decide)

/-- C6: a purchase price of -1 always fails validation — in create
(`NewItem`), whatever the other fields, and in update, where the handler
answers 400 without a usecase call whatever the other supplied fields — while
a purchase price of 0 passes: create succeeds with otherwise-valid fields, and
an update setting only price 0 on an existing item succeeds with the merged
item. -/
theorem purchase_price_boundary_validation :
    (∀ name category brand date,
      NewItem name category brand (-1) date = Except.error DomainError.validationError) ∧
    (∀ store dbFails idParam (n b : Option String),
      handlerUpdateItem store dbFails idParam (some ⟨n, b, some (-1)⟩)
        = ⟨400, false, none⟩) ∧
    (∀ name category brand date, name ≠ "" → brand ≠ "" →
      validPurchaseDate date = true →
      NewItem name category brand 0 date = Except.ok
        { id := 0, name := name, category := category, brand := brand
          purchasePrice := 0, purchaseDate := date }) ∧
    (∀ store id item idParam, findItem store id = some item →
      parsePositiveId idParam = some id →
      handlerUpdateItem store false idParam (some ⟨none, none, some 0⟩) =
        ⟨200, true, some (mergeItem item ⟨none, none, some 0⟩)⟩) := by
  refine ⟨?_, ?_, ?_, ?_⟩
  · intro name category brand date
    unfold NewItem
    split
    · rfl
    split
    · rfl
    split
    · rfl
    rename_i h
    exact absurd (by norm_num : (-1 : Int) < 0) h
  · intro store dbFails idParam n b
    exact handler_invalid_input _ idParam _
      (by rw [validateUpdateInput_neg_price n b (-1) (by norm_num)]; rfl)
  · intro name category brand date hn hb hd
    unfold NewItem
    rw [if_neg hn, if_neg hb, if_neg (by norm_num : ¬ (0 : Int) < 0),
      if_neg (show ¬ ((!validPurchaseDate date) = true) by simp [hd])]
  · intro store id item idParam hfind hid
    unfold handlerUpdateItem
    rw [handler_valid_input _ idParam id ⟨none, none, some 0⟩ hid rfl,
      usecase_found_valid store false id ⟨none, none, some 0⟩ item hfind rfl]
    rfl

/-- C6 witness: creating with price 0 and the scenario fields succeeds, and
updating the stored sample item with only price 0 yields 200 with the merged
item. -/
theorem purchase_price_boundary_validation_witness :
    NewItem "Watch" "Watch" "ROLEX" 0 "2023-01-01" = Except.ok
      { id := 0, name := "Watch", category := "Watch", brand := "ROLEX"
        purchasePrice := 0, purchaseDate := "2023-01-01" } ∧
    handlerUpdateItem [sampleItem] false "1" (some ⟨none, none, some 0⟩) =
      ⟨200, true, some (mergeItem sampleItem ⟨none, none, some 0⟩)⟩ :=
  ⟨purchase_price_boundary_validation.2.2.1 "Watch" "Watch" "ROLEX" "2023-01-01"
      (by decide) (by decide) (by decide),
   purchase_price_boundary_validation.2.2.2 [sampleItem] 1 sampleItem "1"
      (by decide) (by decide)⟩
